import Mathlib

set_option maxRecDepth 20000

/-
Verification of the device-monitoring-system polling core.

The Go source is embedded shallowly:
* timestamps and durations are nanosecond counts (like Go time.Time /
  time.Duration), modelled as Int;
* nullable columns and Go pointer fields are Option;
* fallible Go functions return Except String;
* the SQL claim statement of Repo.GetDevicesByPollingParameter is modelled
  as a pure function on the devices table (a List Device), returning both
  the rows it returns and the updated table, as the single Postgres
  UPDATE ... WHERE id IN (SELECT ...) RETURNING * does;
* the float64 backoff factor is modelled as a rational number.
-/

namespace DMS

/- Timestamps (Go time.Time) and durations (Go time.Duration) are both
nanosecond counts, modelled as Int. -/

def millisecond : Int := 1000000

def second : Int := 1000000000

def minute : Int := 60 * second

/-- Source: defaultDevicePollingOutdateGap = 30 * time.Minute (repo.go). -/
def defaultDevicePollingOutdateGap : Int := 30 * minute

/-- Source: repository.PollingStatus values done, in_progress, cancelled. -/
inductive PollingStatus
  | done
  | inProgress
  | cancelled
deriving DecidableEq, Repr

/-- Source: repository.PollingResult values succeed, failed. -/
inductive PollingResult
  | succeed
  | failed
deriving DecidableEq, Repr

/-- Source: repository.Device (entities.go). -/
structure Device where
  id : Nat
  deviceID : String
  deviceType : String
  hostname : String := ""
  protocols : List String := []
  restPort : Option Int := none
  restPath : Option String := none
  grpcPort : Option Int := none
  pollingStatus : Option PollingStatus := none
  createdAt : Int := 0
  lastCheckedAt : Option Int := none
  deletedAt : Option Int := none
deriving DecidableEq, Repr

/-- Source: repository.PollingHistory (entities.go). -/
structure PollingHistory where
  id : Nat := 0
  deviceID : String
  hwVersion : Option String := none
  swVersion : Option String := none
  fwVersion : Option String := none
  deviceStatus : Option String := none
  deviceChecksum : Option String := none
  pollingResult : PollingResult
  failureReason : Option String := none
  createdAt : Int := 0
deriving DecidableEq, Repr

/-- Source: repository.DevicePollingParameter (repo.go). -/
structure DevicePollingParameter where
  deviceType : String
  interval : Int
  outdatedPeriod : Option Int := none
  limit : Int
deriving DecidableEq, Repr

/-- Source: DevicePollingParameter.validate (repo.go).  The Go method
mutates the parameter (filling the default outdated period); the model
returns the filled-in parameter. -/
def DevicePollingParameter.validate (p : DevicePollingParameter) :
    Except String DevicePollingParameter :=
  if p.deviceType = "" then
    .error "illegal argument: device type cannot be empty"
  else if p.interval ≤ 0 then
    .error "illegal argument: polling interval must be a positive value"
  else if p.limit ≤ 0 then
    .error "illegal argument: limit is must be a positive integer"
  else
    let op := p.outdatedPeriod.getD defaultDevicePollingOutdateGap
    if op ≤ 0 then
      .error "illegal argument: outdate gap must be a positive value"
    else
      .ok { p with outdatedPeriod := some op }

/-- The WHERE clause of the claim query in GetDevicesByPollingParameter
(repo.go), evaluated on one row.  recentCheckpoint = now - interval,
remoteCheckpoint = now - outdatedPeriod.  SQL null comparisons translate
to Option: a null polling_status or a status different from in_progress
satisfies the first conjunct of disjunct one; a null last_checked_at
makes the two strict comparisons false. -/
def claimPred (deviceType : String) (recentCheckpoint remoteCheckpoint : Int)
    (d : Device) : Bool :=
  d.deletedAt.isNone && (d.deviceType = deviceType : Bool) &&
    ( ((d.pollingStatus ≠ some PollingStatus.inProgress : Bool) &&
        (match d.lastCheckedAt with
         | none => true
         | some t => t < recentCheckpoint))
      || (match d.lastCheckedAt with
          | none => false
          | some t => t < remoteCheckpoint)
      || (d.lastCheckedAt.isNone && (d.createdAt < remoteCheckpoint : Bool)) )

/-- The SET clause of the claim query: polling_status = in_progress. -/
def markInProgress (d : Device) : Device :=
  { d with pollingStatus := some PollingStatus.inProgress }

/-- Row order of the claim query: ORDER BY last_checked_at ASC, which in
Postgres places null values last. -/
def lastCheckedLEb (a b : Device) : Bool :=
  match a.lastCheckedAt, b.lastCheckedAt with
  | none, some _ => false
  | some x, some y => x ≤ y
  | _, none => true

def lastCheckedLE (a b : Device) : Prop := lastCheckedLEb a b = true

instance : DecidableRel lastCheckedLE := fun _ _ => instDecidableEqBool _ _

instance : IsTotal Device lastCheckedLE := by
  constructor
  intro a b
  unfold lastCheckedLE lastCheckedLEb
  rcases a.lastCheckedAt with _ | x <;> rcases b.lastCheckedAt with _ | y <;> simp
  exact Int.le_total x y

instance : IsTrans Device lastCheckedLE := by
  constructor
  intro a b c hab hbc
  unfold lastCheckedLE lastCheckedLEb at hab hbc ⊢
  rcases ha : a.lastCheckedAt with _ | x <;> rcases hb : b.lastCheckedAt with _ | y <;>
    rcases hc : c.lastCheckedAt with _ | z <;> simp_all
  omega

/-- Source: Repo.GetDevicesByPollingParameter (repo.go).  The devices table
is a list of rows; the single SQL statement
UPDATE devices SET polling_status = in_progress
WHERE id IN (SELECT id FROM devices WHERE ... ORDER BY last_checked_at ASC
LIMIT n) RETURNING *
is modelled as one function application returning the claimed rows
(post-update, as RETURNING * does) together with the updated table. -/
def GetDevicesByPollingParameter (db : List Device) (now : Int)
    (p : DevicePollingParameter) :
    Except String (List Device × List Device) :=
  match p.validate with
  | .error e => .error ("illegal argument: " ++ e)
  | .ok q =>
    let recentCheckpoint := now - q.interval
    let remoteCheckpoint := now - q.outdatedPeriod.getD 0
    let selected :=
      ((db.filter (claimPred q.deviceType recentCheckpoint remoteCheckpoint)
        ).insertionSort lastCheckedLE).take q.limit.toNat
    let claimedIds := selected.map Device.id
    .ok (selected.map markInProgress,
         db.map (fun d => if claimedIds.contains d.id then markInProgress d else d))

/-- The WHERE clause of the claim query as a proposition, for readable
theorem statements; equivalent to claimPred (see claimPred_iff below). -/
def duePredicate (deviceType : String) (recentCheckpoint remoteCheckpoint : Int)
    (d : Device) : Prop :=
  d.deletedAt = none ∧ d.deviceType = deviceType ∧
    ( (d.pollingStatus ≠ some PollingStatus.inProgress ∧
        (d.lastCheckedAt = none ∨
         ∃ t, d.lastCheckedAt = some t ∧ t < recentCheckpoint)) ∨
      (∃ t, d.lastCheckedAt = some t ∧ t < remoteCheckpoint) ∨
      (d.lastCheckedAt = none ∧ d.createdAt < remoteCheckpoint) )

/-- Source: api.Connectivity (api.go). -/
inductive Connectivity
  | connected
  | disconnected
  | unknown
  | connecting
deriving DecidableEq, Repr

/-- Source: api.DeviceDiagnostics (api.go).  String fields default to the
empty string, like Go zero values. -/
structure DeviceDiagnostics where
  id : Nat
  deviceID : String
  deviceType : String
  deviceHost : String
  hwVersion : String := ""
  swVersion : String := ""
  fwVersion : String := ""
  status : String := ""
  checksum : String := ""
  connectivity : Connectivity
  lastCheckedAt : Option Int := none
deriving DecidableEq, Repr

/-- Source: api.BackoffConfig (api.go).  The float64 factor is modelled as
a rational number. -/
structure BackoffConfig where
  baseDelay : Int
  factor : ℚ
  maxDelay : Int
deriving DecidableEq, Repr

/-- Source: api.PollingConfig (api.go). -/
structure PollingConfig where
  interval : Int
  timeout : Int
  batchSize : Int
  backoff : Option BackoffConfig := none
deriving DecidableEq, Repr

/-- Source: PollingConfig.Validate (api.go).  The ozzo-validation Min rule
skips zero values (IsEmpty short-circuits threshold rules), so each bound
applies only to non-zero fields; validation.Required rejects a nil
backoff, and the final explicit check requires baseDelay < maxDelay. -/
def PollingConfig.Validate (pc : PollingConfig) : Except String Unit :=
  if pc.interval ≠ 0 ∧ pc.interval < millisecond then
    .error "polling interval must be greater than or equal to 1 millisecond"
  else if pc.timeout ≠ 0 ∧ pc.timeout < 10 * millisecond then
    .error "polling timeout must be greater than or equal to 10 millisecond"
  else if pc.batchSize ≠ 0 ∧ pc.batchSize < 1 then
    .error "polling batch size must be greater than or equal to 1"
  else
    match pc.backoff with
    | none => .error "backoff config cannot be nil"
    | some b =>
      if b.baseDelay ≠ 0 ∧ b.baseDelay < 10 * millisecond then
        .error "backoff base delay must be greater than or equal to 10 millisecond"
      else if b.factor ≠ 0 ∧ b.factor < 1 then
        .error "backoff factor must be greater than or equal to 1"
      else if b.maxDelay ≠ 0 ∧ b.maxDelay < 100 * millisecond then
        .error "backoff max delay must be greater than or equal to 100 millisecond"
      else if b.maxDelay ≤ b.baseDelay then
        .error "backoff base delay must be less than or equal to backoff max delay"
      else .ok ()

/-- The descending created_at comparator passed to slices.SortFunc in
GetDeviceDiagnostic (business.go): newest history entries first. -/
def newestFirst (h1 h2 : PollingHistory) : Prop := h2.createdAt ≤ h1.createdAt

instance : DecidableRel newestFirst := fun h1 h2 => Int.decLe h2.createdAt h1.createdAt

instance : IsTotal PollingHistory newestFirst :=
  ⟨fun a b => Int.le_total b.createdAt a.createdAt⟩

instance : IsTrans PollingHistory newestFirst :=
  ⟨fun _ _ _ hab hbc => le_trans hbc hab⟩

/-- Source: business.IsDeviceOutOfSync (business.go); the unused device
argument is dropped. -/
def IsDeviceOutOfSync (latest : PollingHistory) (cfg : PollingConfig)
    (now : Int) : Bool :=
  latest.createdAt < now - 10 * cfg.interval

/-- Source: business.IsDeviceAlive (business.go); the unused device
argument is dropped. -/
def IsDeviceAlive (latest : PollingHistory) (cfg : PollingConfig)
    (now : Int) : Bool :=
  latest.pollingResult = PollingResult.succeed ∧
    now - 2 * cfg.interval < latest.createdAt

/-- Source: business.IsDeviceDisconnected (business.go); the unused device
and config arguments are dropped.  Ten evidences are required; fewer than
ten rows never count as disconnected. -/
def IsDeviceDisconnected (histories : List PollingHistory) : Bool :=
  if histories.length < 10 then false
  else (histories.take 10).all fun h => h.pollingResult = PollingResult.failed

/-- Source: business.GetDeviceDiagnostic (business.go).  The repository
fetch is replaced by the history list argument; the function still
validates the config, handles the empty history, sorts newest-first and
applies the four rules in order. -/
def GetDeviceDiagnostic (device : Device) (history : List PollingHistory)
    (cfg : PollingConfig) (now : Int) : Except String DeviceDiagnostics :=
  match cfg.Validate with
  | .error e =>
    .error ("invalid polling config for device " ++ device.deviceType ++ ": " ++ e)
  | .ok _ =>
    if history.length = 0 then
      .ok { id := device.id, deviceID := device.deviceID,
            deviceType := device.deviceType, deviceHost := device.hostname,
            connectivity := Connectivity.unknown }
    else
      match history.insertionSort newestFirst with
      | [] =>
        .ok { id := device.id, deviceID := device.deviceID,
              deviceType := device.deviceType, deviceHost := device.hostname,
              connectivity := Connectivity.unknown }
      | latest :: restSorted =>
        if IsDeviceOutOfSync latest cfg now then
          .ok { id := device.id, deviceID := device.deviceID,
                deviceType := device.deviceType, deviceHost := device.hostname,
                connectivity := Connectivity.unknown,
                lastCheckedAt := some latest.createdAt }
        else if IsDeviceAlive latest cfg now then
          .ok { id := device.id, deviceID := device.deviceID,
                deviceType := device.deviceType, deviceHost := device.hostname,
                hwVersion := latest.hwVersion.getD "",
                swVersion := latest.swVersion.getD "",
                fwVersion := latest.fwVersion.getD "",
                status := latest.deviceStatus.getD "",
                checksum := latest.deviceChecksum.getD "",
                connectivity := Connectivity.connected,
                lastCheckedAt := some latest.createdAt }
        else if IsDeviceDisconnected (latest :: restSorted) then
          .ok { id := device.id, deviceID := device.deviceID,
                deviceType := device.deviceType, deviceHost := device.hostname,
                connectivity := Connectivity.disconnected,
                lastCheckedAt := some latest.createdAt }
        else
          .ok { id := device.id, deviceID := device.deviceID,
                deviceType := device.deviceType, deviceHost := device.hostname,
                connectivity := Connectivity.connecting,
                lastCheckedAt := some latest.createdAt }

/-- Source: api.PollDeviceResponse (api.go). -/
structure PollDeviceResponse where
  id : String := ""
  ty : String := ""
  hw : String := ""
  sw : String := ""
  fw : String := ""
  status : String := ""
  checksum : String := ""
deriving DecidableEq, Repr

/-- Checksum masking of jsonizePollingResult, on the character list of the
checksum: first character, length-minus-two asterisks, last character. -/
def maskChecksumChars (l : List Char) : List Char :=
  if 2 < l.length then
    l.take 1 ++ List.replicate (l.length - 2) '*' ++ l.drop (l.length - 1)
  else l

/-- Source: worker.jsonizePollingResult (retry wrapper file).  The Go
function copies the response, masks the checksum when longer than two
characters, and marshals the copy; the model returns the copy that gets
marshalled. -/
def jsonizePollingResult (resp : PollDeviceResponse) : PollDeviceResponse :=
  { resp with checksum := String.mk (maskChecksumChars resp.checksum.toList) }

/-- Source: worker.failureReason marshalled by util.JSONMarshalIgnoreErr:
a JSON object with the error message and the 1-based attempt count. -/
def jsonFailureReason (msg : String) (count : Nat) : String :=
  "\x7b\"error\":\"" ++ msg ++ "\",\"count\":" ++ toString count ++ "\x7d"

/-- One result of monitor.PollDevice inside the retry loop: a non-nil
error, a non-nil response with nil error, or the inconsistent nil
response with nil error. -/
inductive PollOutcome
  | success (resp : PollDeviceResponse)
  | failure (msg : String)
  | nilResponse
deriving DecidableEq, Repr

/-- Observable effects of one run of pollDeviceWithBackoff, in order:
log lines, CreatePollingHistory calls (with the row passed, possibly
nil), UpdateDevice calls, and jitter sleeps. -/
inductive RetryEvent
  | log (msg : String)
  | createHistory (h : Option PollingHistory)
  | updateDevice (d : Device)
  | sleep (ns : Int)
deriving DecidableEq, Repr

/-- Go float64-to-Duration conversion truncates toward zero. -/
def durationOfRat (q : ℚ) : Int :=
  if q < 0 then Int.ceil q else Int.floor q

/-- Source: the delay advance step of pollDeviceWithBackoff: when the
current delay is below maxDelay, multiply by the factor (float
arithmetic, modelled over the rationals) and cap at maxDelay; otherwise
stay at maxDelay. -/
def advanceDelay (b : BackoffConfig) (d : Int) : Int :=
  if d < b.maxDelay then
    durationOfRat (min ((d : ℚ) * b.factor) ((b.maxDelay : ℚ)))
  else b.maxDelay

/-- The delay variable of pollDeviceWithBackoff before the n-th jitter
sleep: the loop enters with baseDelay and advances the delay before every
sleep, so sleep n (1-based) draws from the n-times-advanced delay. -/
def delayBeforeSleep (b : BackoffConfig) : Nat → Int
  | 0 => b.baseDelay
  | n + 1 => advanceDelay b (delayBeforeSleep b n)

/-- The history row built for one attempt (failCount = prior failures):
a failed row with the JSON failure reason, a succeed row copying
hw/sw/fw/status/checksum, or nil in the inconsistent case. -/
def succeedRow (deviceID : String) (r : PollDeviceResponse) : PollingHistory :=
  { deviceID := deviceID, hwVersion := some r.hw, swVersion := some r.sw,
    fwVersion := some r.fw, deviceStatus := some r.status,
    deviceChecksum := some r.checksum, pollingResult := PollingResult.succeed }

def failedRow (deviceID : String) (msg : String) (failCount : Nat) : PollingHistory :=
  { deviceID := deviceID, pollingResult := PollingResult.failed,
    failureReason := some (jsonFailureReason msg (failCount + 1)) }

def histForOutcome (deviceID : String) (o : PollOutcome) (failCount : Nat) :
    Option PollingHistory :=
  match o with
  | .failure msg => some (failedRow deviceID msg failCount)
  | .success r => some (succeedRow deviceID r)
  | .nilResponse => none

/-- Source: RetryWrapperMonitor.pollDeviceWithBackoff (retry wrapper
file).  The adapter is replaced by the list of attempt outcomes, the
clock by times (the time observed by attempt n) and the random source by
rand (the jitter sample for attempt n, reduced modulo the current delay
as rand.Int63n is).  Each iteration sets lastCheckedAt, builds the
history row, persists history then device (a nil row is rejected by
CreatePollingHistory and only logged), breaks when the attempt error is
nil (success or nil response), and otherwise advances the delay, sleeps
and retries.  Cancellation is outside this model. -/
def runRetry (b : BackoffConfig) (times : Nat → Int) (rand : Nat → Int) :
    List PollOutcome → Nat → Int → Device → Device × List RetryEvent
  | [], _, _, device => (device, [])
  | o :: rest, n, delay, device =>
    let device1 := { device with lastCheckedAt := some (times n) }
    let device2 := match o with
      | .success _ => { device1 with pollingStatus := some PollingStatus.done }
      | _ => device1
    let attemptLog : RetryEvent := match o with
      | .failure _ =>
        .log ("failed to poll device data on attempt " ++ toString (n + 1))
      | .success _ =>
        .log ("successfully polled device data on attempt " ++ toString (n + 1))
      | .nilResponse =>
        .log "inconsistency state: response from device monitor is nil, will abort polling"
    let hist := histForOutcome device.deviceID o n
    let dbEvents := match hist with
      | some h => [RetryEvent.createHistory (some h)]
      | none => [RetryEvent.createHistory none,
                 RetryEvent.log "db error: failed to save device polling result"]
    match o with
    | .failure _ =>
      let delay1 := advanceDelay b delay
      let s := (rand n).emod delay1
      let next := runRetry b times rand rest (n + 1) delay1 device2
      (next.1, attemptLog :: dbEvents ++
        [RetryEvent.updateDevice device2, RetryEvent.sleep s,
         RetryEvent.log ("retry polling device " ++ device.deviceID)] ++ next.2)
    | _ => (device2, attemptLog :: dbEvents ++ [RetryEvent.updateDevice device2])

/-- The history rows actually appended by a run (CreatePollingHistory
calls whose row was non-nil; a nil row is rejected with an error). -/
def appendedHistories (evs : List RetryEvent) : List PollingHistory :=
  evs.filterMap fun e => match e with
    | .createHistory (some h) => some h
    | _ => none

/-- The jitter sleeps performed by a run, in order. -/
def sleepDurations (evs : List RetryEvent) : List Int :=
  evs.filterMap fun e => match e with
    | .sleep s => some s
    | _ => none

/-- Number of failed attempts before the loop first breaks (every sleep
corresponds to one of these, in order). -/
def leadingFailures : List PollOutcome → Nat
  | .failure _ :: rest => leadingFailures rest + 1
  | _ => 0

/-- Source: DefaultPollingStrategy.GetPollingConfigByDeviceType (api.go);
the batch size comes from config.GetPollingBatchSize and is passed in. -/
def GetPollingConfigByDeviceType (batchSize : Int) (deviceType : String) :
    Except String PollingConfig :=
  if deviceType = "router" then
    .ok { interval := 30 * second, timeout := 10 * second, batchSize := batchSize,
          backoff := some { baseDelay := second, factor := 2, maxDelay := 120 * second } }
  else if deviceType = "switch" then
    .ok { interval := 60 * second, timeout := 10 * second, batchSize := batchSize,
          backoff := some { baseDelay := second, factor := 2, maxDelay := 300 * second } }
  else if deviceType = "camera" then
    .ok { interval := 10 * second, timeout := 3 * second, batchSize := batchSize,
          backoff := some { baseDelay := 500 * millisecond, factor := 2,
                            maxDelay := 60 * second } }
  else if deviceType = "door_access_system" then
    .ok { interval := 10 * second, timeout := 3 * second, batchSize := batchSize,
          backoff := some { baseDelay := 500 * millisecond, factor := 2,
                            maxDelay := 30 * second } }
  else .error ("unsupported device type: " ++ deviceType)

/-- The per-type validation loop of PollingWorker.Start (polling.go):
first strategy or validation error aborts with a descriptive message,
otherwise all (type, config) pairs are collected. -/
def validateDeviceTypeConfigs (psy : String → Except String PollingConfig) :
    List String → Except String (List (String × PollingConfig))
  | [] => .ok []
  | dt :: rest =>
    match psy dt with
    | .error e =>
      .error ("failed to get polling config for device type " ++ dt ++ ": " ++ e)
    | .ok cfg =>
      match cfg.Validate with
      | .error e =>
        .error ("invalid polling config for device type " ++ dt ++ ": " ++ e)
      | .ok _ =>
        match validateDeviceTypeConfigs psy rest with
        | .error e => .error e
        | .ok l => .ok ((dt, cfg) :: l)

/-- Source: PollingWorker.Start (polling.go).  Fails when no device types
exist; validates every type's configuration before launching any
scheduler; on success the returned list is the set of per-type schedulers
started (one goroutine per validated type).  Any strategy or validation
error makes Start return that error with no scheduler started. -/
def PollingWorkerStart (dts : List String)
    (psy : String → Except String PollingConfig) :
    Except String (List (String × PollingConfig)) :=
  if dts.length = 0 then .error "no device types configured in the database"
  else validateDeviceTypeConfigs psy dts

/-- The jitter sleeps of one full run of the retry loop, which enters
with failCount 0 and the configured base delay. -/
def runSleeps (b : BackoffConfig) (times rand : Nat → Int)
    (outcomes : List PollOutcome) (device : Device) : List Int :=
  sleepDurations (runRetry b times rand outcomes 0 b.baseDelay device).2

/- Concrete inputs used by witnesses and counterexamples. -/

def exBackoff : BackoffConfig :=
  { baseDelay := 100000000, factor := 3, maxDelay := 1000000000 }

def exDevice : Device := { id := 1, deviceID := "dev-1", deviceType := "router" }

/-- A due router device that has never been checked (null last_checked_at). -/
def exDeviceNull : Device := { id := 1, deviceID := "A", deviceType := "router" }

/-- A due router device last checked at timestamp 1. -/
def exDeviceStale : Device :=
  { id := 2, deviceID := "B", deviceType := "router", lastCheckedAt := some 1 }

/-- A router device stuck in_progress: null last_checked_at, created at 0. -/
def exDeviceOrphan : Device :=
  { id := 3, deviceID := "C", deviceType := "router",
    pollingStatus := some PollingStatus.inProgress, createdAt := 0 }

def exParamOne : DevicePollingParameter :=
  { deviceType := "router", interval := 10, limit := 1 }

def exParamOutdated : DevicePollingParameter :=
  { deviceType := "router", interval := 10, outdatedPeriod := some 30, limit := 5 }

/-- A polling config that passes Validate. -/
def exConfig : PollingConfig :=
  { interval := second, timeout := second, batchSize := 1,
    backoff := some { baseDelay := second, factor := 2, maxDelay := 60 * second } }

/-- A succeed history entry created at time 95. -/
def exHistSucceed : PollingHistory :=
  { deviceID := "dev-1", hwVersion := some "hw1", swVersion := some "sw1",
    fwVersion := some "fw1", deviceStatus := some "running",
    deviceChecksum := some "abc123", pollingResult := PollingResult.succeed,
    createdAt := 95 }

theorem claimPred_iff (dt : String) (rc rm : Int) (d : Device) :
    claimPred dt rc rm d = true ↔ duePredicate dt rc rm d := by
  unfold claimPred duePredicate
  rcases h : d.lastCheckedAt with _ | t <;>
    simp [h, Option.isNone_iff_eq_none] <;> tauto

theorem validate_ok_iff (p q : DevicePollingParameter) :
    p.validate = .ok q ↔
      p.deviceType ≠ "" ∧ 0 < p.interval ∧ 0 < p.limit ∧
      0 < p.outdatedPeriod.getD defaultDevicePollingOutdateGap ∧
      q = { p with outdatedPeriod := some (p.outdatedPeriod.getD defaultDevicePollingOutdateGap) } := by
  unfold DevicePollingParameter.validate
  split_ifs with h1 h2 h3 <;> simp_all
  split_ifs with h4 <;> simp_all
  exact eq_comm

theorem getDevices_ok_eq (db : List Device) (now : Int)
    (p q : DevicePollingParameter) (ret ndb : List Device)
    (hv : p.validate = .ok q)
    (hr : GetDevicesByPollingParameter db now p = .ok (ret, ndb)) :
    ret = (((db.filter (claimPred p.deviceType (now - p.interval)
        (now - p.outdatedPeriod.getD defaultDevicePollingOutdateGap))).insertionSort
        lastCheckedLE).take p.limit.toNat).map markInProgress := by
  obtain ⟨hdt, hi, hl, hop, rfl⟩ := (validate_ok_iff p q).1 hv
  unfold GetDevicesByPollingParameter at hr
  rw [hv] at hr
  simp only [Except.ok.injEq, Prod.mk.injEq, Option.getD_some] at hr
  exact hr.1.symm

/-- C1: claim_due_devices (GetDevicesByPollingParameter) selects exactly the
non-deleted rows of the requested device type satisfying one of the three
disjuncts of the claim predicate (soundness, and completeness up to the row
limit), returns at most limit rows, marks every returned row
polling_status = in_progress within the same operation that updates the
table, and defaults the outdated period to 30 minutes when absent. -/
theorem claim_due_devices_selection (db : List Device) (now : Int)
    (p q : DevicePollingParameter) (ret ndb : List Device)
    (hv : p.validate = .ok q)
    (hr : GetDevicesByPollingParameter db now p = .ok (ret, ndb)) :
    (∀ d ∈ ret, ∃ d0 ∈ db, d = markInProgress d0 ∧
        duePredicate p.deviceType (now - p.interval)
          (now - p.outdatedPeriod.getD defaultDevicePollingOutdateGap) d0) ∧
    (∀ d0 ∈ db, duePredicate p.deviceType (now - p.interval)
          (now - p.outdatedPeriod.getD defaultDevicePollingOutdateGap) d0 →
        markInProgress d0 ∈ ret ∨ ret.length = p.limit.toNat) ∧
    ret.length ≤ p.limit.toNat ∧
    (∀ d ∈ ret, d.pollingStatus = some PollingStatus.inProgress) ∧
    (p.outdatedPeriod = none → q.outdatedPeriod = some (30 * minute)) := by
  have hret := getDevices_ok_eq db now p q ret ndb hv hr
  set f := claimPred p.deviceType (now - p.interval)
      (now - p.outdatedPeriod.getD defaultDevicePollingOutdateGap) with hf
  set L := (db.filter f).insertionSort lastCheckedLE with hL
  refine ⟨?_, ?_, ?_, ?_, ?_⟩
  · intro d hd
    rw [hret] at hd
    obtain ⟨s, hs, rfl⟩ := List.mem_map.1 hd
    have hsL : s ∈ L := List.take_subset _ _ hs
    have hsf : s ∈ db.filter f := (List.mem_insertionSort lastCheckedLE).1 hsL
    obtain ⟨hsdb, hsp⟩ := List.mem_filter.1 hsf
    exact ⟨s, hsdb, rfl, (claimPred_iff _ _ _ _).1 hsp⟩
  · intro d0 hd0 hdue
    have hf0 : f d0 = true := (claimPred_iff _ _ _ _).2 hdue
    have h1 : d0 ∈ db.filter f := List.mem_filter.2 ⟨hd0, hf0⟩
    have h2 : d0 ∈ L := (List.mem_insertionSort lastCheckedLE).2 h1
    by_cases hlen : L.length ≤ p.limit.toNat
    · left
      rw [hret, List.take_of_length_le hlen]
      exact List.mem_map_of_mem markInProgress h2
    · right
      rw [hret, List.length_map, List.length_take]
      omega
  · rw [hret, List.length_map, List.length_take]
    omega
  · intro d hd
    rw [hret] at hd
    obtain ⟨s, hs, rfl⟩ := List.mem_map.1 hd
    rfl
  · intro hnone
    obtain ⟨hdt, hi, hl, hop, rfl⟩ := (validate_ok_iff p q).1 hv
    simp [hnone, defaultDevicePollingOutdateGap]

/-- C4 (amended): the rows returned by claim_due_devices are ordered
ascending by last_checked_at with null values placed last (the Postgres
default for ASC), and the list is truncated to limit rows only after that
ordering: its length is the minimum of limit and the number of rows
matching the claim predicate. -/
theorem claim_order_nulls_last (db : List Device) (now : Int)
    (p q : DevicePollingParameter) (ret ndb : List Device)
    (hv : p.validate = .ok q)
    (hr : GetDevicesByPollingParameter db now p = .ok (ret, ndb)) :
    List.Sorted lastCheckedLE ret ∧
    ret.length = min p.limit.toNat
      (db.filter (claimPred p.deviceType (now - p.interval)
        (now - p.outdatedPeriod.getD defaultDevicePollingOutdateGap))).length := by
  have hret := getDevices_ok_eq db now p q ret ndb hv hr
  subst hret
  constructor
  · have hs := List.sorted_insertionSort lastCheckedLE
      (db.filter (claimPred p.deviceType (now - p.interval)
        (now - p.outdatedPeriod.getD defaultDevicePollingOutdateGap)))
    have hst := hs.sublist (List.take_sublist p.limit.toNat _)
    exact (List.pairwise_map).2 (hst.imp (fun h => h))
  · rw [List.length_map, List.length_take, List.length_insertionSort]

/-- Counterexample to C4 as stated: with two due router devices, one
never checked (null last_checked_at) and one checked at timestamp 1, and
limit 1, the query returns the checked device: ORDER BY last_checked_at
ASC in Postgres places nulls last, not first. -/
theorem claim_order_nulls_first_refuted :
    (GetDevicesByPollingParameter [exDeviceNull, exDeviceStale] 100 exParamOne).toOption.map
        (fun r => r.1.map Device.deviceID) = some ["B"] ∧
    claimPred "router" (100 - 10) (100 - defaultDevicePollingOutdateGap) exDeviceNull = true ∧
    exDeviceNull.lastCheckedAt = none := by
  refine ⟨by decide, by decide, rfl⟩

/-- Witness for C4 (amended) on the two-device table: the returned
singleton is sorted and has length min(limit, matching rows). -/
theorem claim_order_nulls_last_witness :
    List.Sorted lastCheckedLE [markInProgress exDeviceStale] ∧
    ([markInProgress exDeviceStale] : List Device).length =
      min exParamOne.limit.toNat
        (([exDeviceNull, exDeviceStale].filter
          (claimPred exParamOne.deviceType (100 - exParamOne.interval)
            (100 - exParamOne.outdatedPeriod.getD defaultDevicePollingOutdateGap)))).length :=
  claim_order_nulls_last [exDeviceNull, exDeviceStale] 100 exParamOne
    { exParamOne with outdatedPeriod := some defaultDevicePollingOutdateGap }
    [markInProgress exDeviceStale] [exDeviceNull, markInProgress exDeviceStale]
    (by rfl) (by rfl)

/-- C5 (amended): every device claimed by claim_due_devices is
non-deleted and satisfies polling_status different from in_progress, or
last_checked_at older than the outdated-period threshold, or null
last_checked_at with created_at older than that threshold (the
never-completed-newcomer recovery disjunct the original claim missed). -/
theorem claim_i1_staleness (db : List Device) (now : Int)
    (p q : DevicePollingParameter) (ret ndb : List Device)
    (hv : p.validate = .ok q)
    (hr : GetDevicesByPollingParameter db now p = .ok (ret, ndb)) :
    ∀ d ∈ ret, ∃ d0 ∈ db, d = markInProgress d0 ∧ d0.deletedAt = none ∧
      (d0.pollingStatus ≠ some PollingStatus.inProgress ∨
       (∃ t, d0.lastCheckedAt = some t ∧
          t < now - p.outdatedPeriod.getD defaultDevicePollingOutdateGap) ∨
       (d0.lastCheckedAt = none ∧
          d0.createdAt < now - p.outdatedPeriod.getD defaultDevicePollingOutdateGap)) := by
  intro d hd
  have hret := getDevices_ok_eq db now p q ret ndb hv hr
  rw [hret] at hd
  obtain ⟨s, hs, rfl⟩ := List.mem_map.1 hd
  have hsL := List.take_subset p.limit.toNat _ hs
  have hsf := (List.mem_insertionSort lastCheckedLE).1 hsL
  obtain ⟨hsdb, hsp⟩ := List.mem_filter.1 hsf
  obtain ⟨hdel, hdt, hD⟩ := (claimPred_iff _ _ _ _).1 hsp
  refine ⟨s, hsdb, rfl, hdel, ?_⟩
  rcases hD with ⟨hstat, _⟩ | h2 | h3
  · exact Or.inl hstat
  · exact Or.inr (Or.inl h2)
  · exact Or.inr (Or.inr h3)

/-- Counterexample to C5 as stated: a device with
polling_status = in_progress, null last_checked_at (hence no
last_checked_at older than any threshold) and a created_at beyond the
outdated period is claimed, via the third disjunct of the claim
predicate. -/
theorem claim_i1_refuted :
    (GetDevicesByPollingParameter [exDeviceOrphan] 100 exParamOutdated).toOption.map
        (fun r => r.1.map Device.deviceID) = some ["C"] ∧
    exDeviceOrphan.pollingStatus = some PollingStatus.inProgress ∧
    exDeviceOrphan.lastCheckedAt = none := by
  refine ⟨by decide, rfl, rfl⟩

/-- Witness for C5 (amended) at the orphaned in-progress device. -/
theorem claim_i1_staleness_witness :
    ∃ d0 ∈ [exDeviceOrphan], markInProgress exDeviceOrphan = markInProgress d0 ∧
      d0.deletedAt = none ∧
      (d0.pollingStatus ≠ some PollingStatus.inProgress ∨
       (∃ t, d0.lastCheckedAt = some t ∧
          t < 100 - exParamOutdated.outdatedPeriod.getD defaultDevicePollingOutdateGap) ∨
       (d0.lastCheckedAt = none ∧
          d0.createdAt < 100 - exParamOutdated.outdatedPeriod.getD defaultDevicePollingOutdateGap)) :=
  claim_i1_staleness [exDeviceOrphan] 100 exParamOutdated
    { exParamOutdated with outdatedPeriod := some 30 }
    [markInProgress exDeviceOrphan] [markInProgress exDeviceOrphan]
    (by rfl) (by rfl) (markInProgress exDeviceOrphan) (by simp)

/-- C9: GetDevicesByPollingParameter returns an illegal-argument error,
and hence touches no device, whenever the device type is empty, the
interval or limit is non-positive, or a supplied outdated period is
non-positive. -/
theorem polling_parameter_validation_rejects (db : List Device) (now : Int)
    (p : DevicePollingParameter)
    (h : p.deviceType = "" ∨ p.interval ≤ 0 ∨ p.limit ≤ 0 ∨
         (∃ op, p.outdatedPeriod = some op ∧ op ≤ 0)) :
    ∃ e, GetDevicesByPollingParameter db now p = .error e ∧
      e.take 16 = "illegal argument" := by
  have hval : p.validate = .error "illegal argument: device type cannot be empty" ∨
      p.validate = .error "illegal argument: polling interval must be a positive value" ∨
      p.validate = .error "illegal argument: limit is must be a positive integer" ∨
      p.validate = .error "illegal argument: outdate gap must be a positive value" := by
    unfold DevicePollingParameter.validate
    by_cases hA : p.deviceType = ""
    · left; simp [hA]
    · by_cases hB : p.interval ≤ 0
      · right; left; simp [hA, hB]
      · by_cases hC : p.limit ≤ 0
        · right; right; left; simp [hA, hB, hC]
        · right; right; right
          rcases h with h1 | h2 | h3 | ⟨op, hop, hople⟩
          · exact absurd h1 hA
          · exact absurd h2 hB
          · exact absurd h3 hC
          · simp [hA, hB, hC, hop, hople]
  unfold GetDevicesByPollingParameter
  rcases hval with hv | hv | hv | hv <;> rw [hv] <;> exact ⟨_, rfl, by decide⟩

/-- Witness for C9 at a negative interval. -/
theorem polling_parameter_validation_rejects_witness :
    ∃ e, GetDevicesByPollingParameter [] 0
        { deviceType := "router", interval := -5, limit := 1 } = .error e ∧
      e.take 16 = "illegal argument" :=
  polling_parameter_validation_rejects [] 0
    { deviceType := "router", interval := -5, limit := 1 }
    (Or.inr (Or.inl (by decide)))

/-- C6 (amended): on a nil response with nil error the retry loop logs
the inconsistency, passes a nil history row to CreatePollingHistory,
which rejects it (the db error is logged and no row is appended), still
updates the device row with the new last_checked_at, does not retry
further in that invocation, and returns. -/
theorem nil_response_aborts (b : BackoffConfig) (times rand : Nat → Int)
    (rest : List PollOutcome) (n : Nat) (delay : Int) (device : Device) :
    runRetry b times rand (PollOutcome.nilResponse :: rest) n delay device =
      ({ device with lastCheckedAt := some (times n) },
       [RetryEvent.log "inconsistency state: response from device monitor is nil, will abort polling",
        RetryEvent.createHistory none,
        RetryEvent.log "db error: failed to save device polling result",
        RetryEvent.updateDevice { device with lastCheckedAt := some (times n) }]) ∧
    appendedHistories (runRetry b times rand (PollOutcome.nilResponse :: rest) n delay device).2 = [] := by
  constructor <;> rfl

/-- Counterexample to C6 as stated: on a nil response with nil error the
run appends no polling-history row at all (the nil row passed to
CreatePollingHistory is rejected), rather than a row with
polling_result = failed. -/
theorem nil_response_no_history_row :
    appendedHistories (runRetry exBackoff (fun _ => 0) (fun _ => 0)
      [PollOutcome.nilResponse] 0 exBackoff.baseDelay exDevice).2 = [] ∧
    (runRetry exBackoff (fun _ => 0) (fun _ => 0)
      [PollOutcome.nilResponse] 0 exBackoff.baseDelay exDevice).2.length = 4 := by
  constructor <;> rfl

/-- C7: on a successful attempt the retry loop appends exactly one
history row with polling_result = succeed copying
hw/sw/fw/status/checksum from the response, sets
device.polling_status = done and device.last_checked_at to the attempt
time, persists the history row and then the device row, and terminates
with no further attempts. -/
theorem success_attempt_persists_once (b : BackoffConfig) (times rand : Nat → Int)
    (resp : PollDeviceResponse) (rest : List PollOutcome) (n : Nat)
    (delay : Int) (device : Device) :
    runRetry b times rand (PollOutcome.success resp :: rest) n delay device =
      ({ device with lastCheckedAt := some (times n), pollingStatus := some PollingStatus.done },
       [RetryEvent.log ("successfully polled device data on attempt " ++ toString (n + 1)),
        RetryEvent.createHistory (some (succeedRow device.deviceID resp)),
        RetryEvent.updateDevice { device with lastCheckedAt := some (times n), pollingStatus := some PollingStatus.done }]) ∧
    appendedHistories (runRetry b times rand (PollOutcome.success resp :: rest) n delay device).2 =
      [succeedRow device.deviceID resp] := by
  constructor <;> rfl

theorem validateDeviceTypeConfigs_error (psy : String → Except String PollingConfig) :
    ∀ dts : List String, (∃ dt ∈ dts, (∃ e, psy dt = .error e) ∨
        (∃ cfg e, psy dt = .ok cfg ∧ cfg.Validate = .error e)) →
      ∃ e, validateDeviceTypeConfigs psy dts = .error e := by
  intro dts
  induction dts with
  | nil =>
    rintro ⟨dt, hmem, _⟩
    cases hmem
  | cons d rest ih =>
    rintro ⟨dt, hmem, hbad⟩
    rcases hd : psy d with e | cfg
    · refine ⟨"failed to get polling config for device type " ++ d ++ ": " ++ e, ?_⟩
      simp [validateDeviceTypeConfigs, hd]
    · rcases hvd : cfg.Validate with e | u
      · refine ⟨"invalid polling config for device type " ++ d ++ ": " ++ e, ?_⟩
        simp [validateDeviceTypeConfigs, hd, hvd]
      · have hdtrest : dt ∈ rest := by
          rcases List.mem_cons.1 hmem with rfl | h
          · exfalso
            rcases hbad with ⟨e, he⟩ | ⟨cfg2, e, hok, hbad2⟩
            · rw [hd] at he
              cases he
            · rw [hd] at hok
              injection hok with h2
              subst h2
              rw [hvd] at hbad2
              cases hbad2
          · exact h
        obtain ⟨e, he⟩ := ih ⟨dt, hdtrest, hbad⟩
        refine ⟨e, ?_⟩
        simp [validateDeviceTypeConfigs, hd, hvd, he]

theorem validateDeviceTypeConfigs_ok (psy : String → Except String PollingConfig) :
    ∀ dts : List String, (∀ dt ∈ dts, ∃ cfg, psy dt = .ok cfg ∧ cfg.Validate = .ok ()) →
      ∃ l, validateDeviceTypeConfigs psy dts = .ok l ∧ l.map Prod.fst = dts := by
  intro dts
  induction dts with
  | nil =>
    intro _
    exact ⟨[], rfl, rfl⟩
  | cons d rest ih =>
    intro hall
    obtain ⟨cfg, hok, hval⟩ := hall d (List.mem_cons_self d rest)
    obtain ⟨l, hl, hmap⟩ := ih (fun dt hdt => hall dt (List.mem_cons_of_mem d hdt))
    refine ⟨(d, cfg) :: l, ?_, by simp [hmap]⟩
    simp [validateDeviceTypeConfigs, hok, hval, hl]

/-- C8 (amended): PollingWorker.Start validates every device type before
launching any scheduler: if any type has no configuration or an invalid
one, Start returns a descriptive error and starts no scheduler for any
type; only when all types validate does it start one scheduler per type. -/
theorem start_validates_every_type (dts : List String)
    (psy : String → Except String PollingConfig) :
    ((∃ dt ∈ dts, (∃ e, psy dt = .error e) ∨
        (∃ cfg e, psy dt = .ok cfg ∧ cfg.Validate = .error e)) →
      ∃ e, PollingWorkerStart dts psy = .error e) ∧
    ((∀ dt ∈ dts, ∃ cfg, psy dt = .ok cfg ∧ cfg.Validate = .ok ()) →
      dts ≠ [] →
      ∃ l, PollingWorkerStart dts psy = .ok l ∧ l.map Prod.fst = dts) := by
  constructor
  · rintro ⟨dt, hmem, hbad⟩
    have hne : dts.length ≠ 0 := by
      cases dts
      · cases hmem
      · simp
    unfold PollingWorkerStart
    rw [if_neg hne]
    exact validateDeviceTypeConfigs_error psy dts ⟨dt, hmem, hbad⟩
  · intro hall hne
    have hne2 : dts.length ≠ 0 := by
      cases dts
      · exact absurd rfl hne
      · simp
    unfold PollingWorkerStart
    rw [if_neg hne2]
    exact validateDeviceTypeConfigs_ok psy dts hall

/-- Counterexample to C8 as stated: with device types router and bogus
under the default strategy, Start returns the descriptive error for bogus
and produces no scheduler list at all, even though the router
configuration is valid: the other schedulers are not started. -/
theorem start_aborts_on_unknown_type :
    PollingWorkerStart ["router", "bogus"] (GetPollingConfigByDeviceType 100) =
      .error "failed to get polling config for device type bogus: unsupported device type: bogus" ∧
    GetPollingConfigByDeviceType 100 "router" =
      .ok { interval := 30 * second, timeout := 10 * second, batchSize := 100,
            backoff := some { baseDelay := second, factor := 2, maxDelay := 120 * second } } := by
  constructor <;> rfl

/-- Witness for C8 (amended): the bogus type makes Start fail. -/
theorem start_validates_every_type_witness :
    ∃ e, PollingWorkerStart ["router", "bogus"] (GetPollingConfigByDeviceType 100) = .error e :=
  (start_validates_every_type ["router", "bogus"] (GetPollingConfigByDeviceType 100)).1
    ⟨"bogus", by decide, Or.inl ⟨"unsupported device type: bogus", by rfl⟩⟩

/-- C10: the value logged on success masks the checksum: for length
greater than two it is first character, length-minus-two asterisks, last
character, with total length preserved; shorter checksums are unchanged;
all other response fields are logged unmodified (and the function is
pure, so the response itself is never mutated). -/
theorem jsonize_masks_checksum (resp : PollDeviceResponse) :
    (2 < resp.checksum.toList.length →
      (jsonizePollingResult resp).checksum.toList =
        resp.checksum.toList.take 1 ++
          List.replicate (resp.checksum.toList.length - 2) '*' ++
          resp.checksum.toList.drop (resp.checksum.toList.length - 1) ∧
      (jsonizePollingResult resp).checksum.toList.length = resp.checksum.toList.length) ∧
    (resp.checksum.toList.length ≤ 2 →
      (jsonizePollingResult resp).checksum = resp.checksum) ∧
    (jsonizePollingResult resp).id = resp.id ∧
    (jsonizePollingResult resp).ty = resp.ty ∧
    (jsonizePollingResult resp).hw = resp.hw ∧
    (jsonizePollingResult resp).sw = resp.sw ∧
    (jsonizePollingResult resp).fw = resp.fw ∧
    (jsonizePollingResult resp).status = resp.status := by
  unfold jsonizePollingResult maskChecksumChars
  refine ⟨?_, ?_, rfl, rfl, rfl, rfl, rfl, rfl⟩
  · intro h
    rw [if_pos h]
    refine ⟨rfl, ?_⟩
    show (resp.checksum.toList.take 1 ++
        List.replicate (resp.checksum.toList.length - 2) '*' ++
        resp.checksum.toList.drop (resp.checksum.toList.length - 1)).length =
      resp.checksum.toList.length
    rw [List.length_append, List.length_append, List.length_take,
      List.length_replicate, List.length_drop]
    omega
  · intro h
    rw [if_neg (by omega)]
    rfl

/-- Witness for C10 on the checksum abcdef. -/
theorem jsonize_masks_checksum_witness :
    2 < ("abcdef" : String).toList.length ∧
    (jsonizePollingResult { checksum := "abcdef" }).checksum.toList =
      ("abcdef" : String).toList.take 1 ++
        List.replicate (("abcdef" : String).toList.length - 2) '*' ++
        ("abcdef" : String).toList.drop (("abcdef" : String).toList.length - 1) :=
  ⟨by decide, ((jsonize_masks_checksum { checksum := "abcdef" }).1 (by decide)).1⟩

theorem isDeviceOutOfSync_iff (latest : PollingHistory) (cfg : PollingConfig) (now : Int) :
    IsDeviceOutOfSync latest cfg now = true ↔
      latest.createdAt < now - 10 * cfg.interval := by
  simp [IsDeviceOutOfSync]

theorem isDeviceAlive_iff (latest : PollingHistory) (cfg : PollingConfig) (now : Int) :
    IsDeviceAlive latest cfg now = true ↔
      latest.pollingResult = PollingResult.succeed ∧
        now - 2 * cfg.interval < latest.createdAt := by
  simp [IsDeviceAlive]

theorem isDeviceDisconnected_iff (l : List PollingHistory) :
    IsDeviceDisconnected l = true ↔
      10 ≤ l.length ∧ ∀ h ∈ l.take 10, h.pollingResult = PollingResult.failed := by
  unfold IsDeviceDisconnected
  split_ifs with h
  · constructor
    · intro hf
      simp at hf
    · rintro ⟨h10, _⟩
      omega
  · rw [List.all_eq_true]
    constructor
    · intro ha
      exact ⟨by omega, fun x hx => by simpa using ha x hx⟩
    · rintro ⟨_, hall⟩ x hx
      simp [hall x hx]

/-- C2: for a valid polling config and a history sorted newest first,
GetDeviceDiagnostic applies the rules in order, first match winning:
empty history gives Unknown without last_checked_at; a latest entry older
than 10 intervals gives Unknown with last_checked_at; a succeeding latest
entry newer than 2 intervals gives Connected with hw/sw/fw/status/checksum
propagated; ten most recent entries all failed (at least ten rows) gives
Disconnected; otherwise Connecting. -/
theorem device_diagnostic_rules (device : Device) (history : List PollingHistory)
    (cfg : PollingConfig) (now : Int)
    (hv : cfg.Validate = .ok ())
    (hs : List.Sorted newestFirst history) :
    (history = [] →
      GetDeviceDiagnostic device history cfg now =
        .ok { id := device.id, deviceID := device.deviceID,
              deviceType := device.deviceType, deviceHost := device.hostname,
              connectivity := Connectivity.unknown }) ∧
    (∀ latest rest, history = latest :: rest →
      ((latest.createdAt < now - 10 * cfg.interval →
          GetDeviceDiagnostic device history cfg now =
            .ok { id := device.id, deviceID := device.deviceID,
                  deviceType := device.deviceType, deviceHost := device.hostname,
                  connectivity := Connectivity.unknown,
                  lastCheckedAt := some latest.createdAt }) ∧
       (¬latest.createdAt < now - 10 * cfg.interval →
          latest.pollingResult = PollingResult.succeed →
          now - 2 * cfg.interval < latest.createdAt →
          GetDeviceDiagnostic device history cfg now =
            .ok { id := device.id, deviceID := device.deviceID,
                  deviceType := device.deviceType, deviceHost := device.hostname,
                  hwVersion := latest.hwVersion.getD "",
                  swVersion := latest.swVersion.getD "",
                  fwVersion := latest.fwVersion.getD "",
                  status := latest.deviceStatus.getD "",
                  checksum := latest.deviceChecksum.getD "",
                  connectivity := Connectivity.connected,
                  lastCheckedAt := some latest.createdAt }) ∧
       (¬latest.createdAt < now - 10 * cfg.interval →
          ¬(latest.pollingResult = PollingResult.succeed ∧
            now - 2 * cfg.interval < latest.createdAt) →
          10 ≤ history.length →
          (∀ h ∈ history.take 10, h.pollingResult = PollingResult.failed) →
          GetDeviceDiagnostic device history cfg now =
            .ok { id := device.id, deviceID := device.deviceID,
                  deviceType := device.deviceType, deviceHost := device.hostname,
                  connectivity := Connectivity.disconnected,
                  lastCheckedAt := some latest.createdAt }) ∧
       (¬latest.createdAt < now - 10 * cfg.interval →
          ¬(latest.pollingResult = PollingResult.succeed ∧
            now - 2 * cfg.interval < latest.createdAt) →
          ¬(10 ≤ history.length ∧
            ∀ h ∈ history.take 10, h.pollingResult = PollingResult.failed) →
          GetDeviceDiagnostic device history cfg now =
            .ok { id := device.id, deviceID := device.deviceID,
                  deviceType := device.deviceType, deviceHost := device.hostname,
                  connectivity := Connectivity.connecting,
                  lastCheckedAt := some latest.createdAt }))) := by
  constructor
  · intro h0
    subst h0
    unfold GetDeviceDiagnostic
    rw [hv]
    rfl
  · intro latest rest hh
    subst hh
    have hsort : (latest :: rest).insertionSort newestFirst = latest :: rest :=
      hs.insertionSort_eq
    unfold GetDeviceDiagnostic
    rw [hv]
    dsimp only
    rw [if_neg (by simp)]
    rw [hsort]
    dsimp only
    refine ⟨?_, ?_, ?_, ?_⟩
    · intro hout
      rw [if_pos ((isDeviceOutOfSync_iff latest cfg now).2 hout)]
    · intro hnout hsucc htime
      rw [if_neg (fun hc => hnout ((isDeviceOutOfSync_iff latest cfg now).1 hc))]
      rw [if_pos ((isDeviceAlive_iff latest cfg now).2 ⟨hsucc, htime⟩)]
    · intro hnout hnalive h10 hfail
      rw [if_neg (fun hc => hnout ((isDeviceOutOfSync_iff latest cfg now).1 hc))]
      rw [if_neg (fun hc => hnalive ((isDeviceAlive_iff latest cfg now).1 hc))]
      rw [if_pos ((isDeviceDisconnected_iff (latest :: rest)).2 ⟨h10, hfail⟩)]
    · intro hnout hnalive hndis
      rw [if_neg (fun hc => hnout ((isDeviceOutOfSync_iff latest cfg now).1 hc))]
      rw [if_neg (fun hc => hnalive ((isDeviceAlive_iff latest cfg now).1 hc))]
      rw [if_neg (fun hc => hndis ((isDeviceDisconnected_iff (latest :: rest)).1 hc))]

/-- Witness for C2: a single succeeding fresh history entry yields
Connected with the entry metadata propagated. -/
theorem device_diagnostic_rules_witness :
    GetDeviceDiagnostic exDevice [exHistSucceed] exConfig 100 =
      .ok { id := exDevice.id, deviceID := exDevice.deviceID,
            deviceType := exDevice.deviceType, deviceHost := exDevice.hostname,
            hwVersion := exHistSucceed.hwVersion.getD "",
            swVersion := exHistSucceed.swVersion.getD "",
            fwVersion := exHistSucceed.fwVersion.getD "",
            status := exHistSucceed.deviceStatus.getD "",
            checksum := exHistSucceed.deviceChecksum.getD "",
            connectivity := Connectivity.connected,
            lastCheckedAt := some exHistSucceed.createdAt } :=
  (((device_diagnostic_rules exDevice [exHistSucceed] exConfig 100 (by rfl)
      (by simp)).2 exHistSucceed [] rfl).2.1) (by decide) (by decide) (by decide)

theorem sleepDurations_runRetry (b : BackoffConfig) (times rand : Nat → Int) :
    ∀ (outcomes : List PollOutcome) (n : Nat) (device : Device),
      sleepDurations (runRetry b times rand outcomes n (delayBeforeSleep b n) device).2 =
        (List.range (leadingFailures outcomes)).map
          (fun j => (rand (n + j)).emod (delayBeforeSleep b (n + j + 1))) := by
  intro outcomes
  induction outcomes with
  | nil =>
    intro n device
    rfl
  | cons o rest ih =>
    intro n device
    cases o with
    | success r => rfl
    | nilResponse => rfl
    | failure msg =>
      have hstep : sleepDurations (runRetry b times rand (PollOutcome.failure msg :: rest) n
          (delayBeforeSleep b n) device).2 =
        (rand n).emod (delayBeforeSleep b (n + 1)) ::
          sleepDurations (runRetry b times rand rest (n + 1) (delayBeforeSleep b (n + 1))
            { device with lastCheckedAt := some (times n) }).2 := rfl
      rw [hstep, ih (n + 1)]
      have hlf : leadingFailures (PollOutcome.failure msg :: rest) =
          leadingFailures rest + 1 := rfl
      rw [hlf, List.range_succ_eq_map, List.map_cons, List.map_map]
      congr 1
      apply List.map_congr_left
      intro j _
      have h1 : n + 1 + j = n + (j + 1) := by omega
      have h2 : n + 1 + j + 1 = n + (j + 1) + 1 := by omega
      simp only [Function.comp_apply, Nat.succ_eq_add_one, h1, h2]

theorem advanceDelay_pos (b : BackoffConfig) (hfac : 1 ≤ b.factor)
    (hmax : 0 < b.maxDelay) (d : Int) (hd : 0 < d) : 0 < advanceDelay b d := by
  unfold advanceDelay
  split_ifs with hlt
  · unfold durationOfRat
    have hd1 : (1 : ℚ) ≤ (d : ℚ) := by exact_mod_cast hd
    have h1 : (1 : ℚ) ≤ (d : ℚ) * b.factor := by
      calc (1 : ℚ) ≤ (d : ℚ) := hd1
        _ = (d : ℚ) * 1 := by ring
        _ ≤ (d : ℚ) * b.factor := by
            apply mul_le_mul_of_nonneg_left hfac (by linarith)
    have h2 : (1 : ℚ) ≤ (b.maxDelay : ℚ) := by exact_mod_cast hmax
    have h3 : (1 : ℚ) ≤ min ((d : ℚ) * b.factor) ((b.maxDelay : ℚ)) := le_min h1 h2
    rw [if_neg (by linarith)]
    have h4 : (1 : ℤ) ≤ Int.floor (min ((d : ℚ) * b.factor) ((b.maxDelay : ℚ))) :=
      Int.le_floor.2 (by exact_mod_cast h3)
    omega
  · exact hmax

theorem delayBeforeSleep_pos (b : BackoffConfig) (hbase : 0 < b.baseDelay)
    (hfac : 1 ≤ b.factor) (hmax : 0 < b.maxDelay) :
    ∀ n, 0 < delayBeforeSleep b n := by
  intro n
  induction n with
  | zero => exact hbase
  | succ k ih => exact advanceDelay_pos b hfac hmax _ ih

/-- C3 (amended): the i-th inter-attempt sleep (1-based) of the retry
loop is drawn from the half-open interval from 0 to d_i, where
d_0 = base_delay and d_i = min(d_(i-1) * factor, max_delay) (the delay is
advanced before each sleep, so the first sleep is bounded by
min(base_delay * factor, max_delay), not base_delay): one sleep per
leading failed attempt, every sleep lies in the interval, and every value
of the interval is attained by some random source. -/
theorem backoff_sleep_interval_law (b : BackoffConfig) (times rand : Nat → Int)
    (outcomes : List PollOutcome) (device : Device)
    (hbase : 0 < b.baseDelay) (hfac : 1 ≤ b.factor) (hmax : 0 < b.maxDelay) :
    (runSleeps b times rand outcomes device).length = leadingFailures outcomes ∧
    (∀ (i : Nat) (hi : i < (runSleeps b times rand outcomes device).length),
       0 ≤ (runSleeps b times rand outcomes device).get ⟨i, hi⟩ ∧
       (runSleeps b times rand outcomes device).get ⟨i, hi⟩ < delayBeforeSleep b (i + 1)) ∧
    (∀ i v, i < leadingFailures outcomes → 0 ≤ v → v < delayBeforeSleep b (i + 1) →
       (runSleeps b times (fun _ => v) outcomes device).get? i = some v) := by
  have hrun : runSleeps b times rand outcomes device =
      (List.range (leadingFailures outcomes)).map
        (fun j => (rand (0 + j)).emod (delayBeforeSleep b (0 + j + 1))) :=
    sleepDurations_runRetry b times rand outcomes 0 device
  refine ⟨?_, ?_, ?_⟩
  · rw [hrun, List.length_map, List.length_range]
  · intro i hi
    have hpos := delayBeforeSleep_pos b hbase hfac hmax (i + 1)
    have hlen : i < leadingFailures outcomes := by
      rw [hrun, List.length_map, List.length_range] at hi
      exact hi
    have hget : (runSleeps b times rand outcomes device).get ⟨i, hi⟩ =
        (rand (0 + i)).emod (delayBeforeSleep b (0 + i + 1)) := by
      simp [hrun]
    rw [hget]
    simp only [Nat.zero_add]
    exact ⟨Int.emod_nonneg _ (by omega), Int.emod_lt_of_pos _ hpos⟩
  · intro i v hik hv0 hvlt
    have hrun2 : runSleeps b times (fun _ => v) outcomes device =
        (List.range (leadingFailures outcomes)).map
          (fun j => v.emod (delayBeforeSleep b (0 + j + 1))) :=
      sleepDurations_runRetry b times (fun _ => v) outcomes 0 device
    rw [hrun2, List.get?_map, List.get?_range hik, Option.map_some']
    rw [Nat.zero_add]
    exact congrArg some (Int.emod_eq_of_lt hv0 hvlt)

theorem delayBeforeSleep_exBackoff_one : delayBeforeSleep exBackoff 1 = 300000000 := by
  norm_num [delayBeforeSleep, advanceDelay, durationOfRat, exBackoff]

/-- Counterexample to C3 as stated: with base delay 100ms, factor 3 and
max delay 1s, the sleep after the first failed attempt can be 200ms,
which is not in the claimed interval of radius
min(base_delay * factor^0, max_delay) = base_delay: the code advances the
delay before the first sleep. -/
theorem backoff_first_sleep_exceeds_base :
    runSleeps exBackoff (fun _ => 0) (fun _ => 200000000)
      [PollOutcome.failure "some error"] exDevice = [200000000] ∧
    ¬((200000000 : Int) < min (exBackoff.baseDelay * 1) exBackoff.maxDelay) := by
  constructor
  · have h := sleepDurations_runRetry exBackoff (fun _ => 0) (fun _ => 200000000)
      [PollOutcome.failure "some error"] 0 exDevice
    calc runSleeps exBackoff (fun _ => 0) (fun _ => 200000000)
          [PollOutcome.failure "some error"] exDevice
        = (List.range 1).map
            (fun j => ((200000000 : Int)).emod (delayBeforeSleep exBackoff (0 + j + 1))) := h
      _ = [(200000000 : Int).emod (delayBeforeSleep exBackoff 1)] := by
            rw [show List.range 1 = [0] from rfl]
            simp
      _ = [200000000] := by
            rw [delayBeforeSleep_exBackoff_one]
            decide
  · decide

/-- Witness for C3 (amended): a run with two failed attempts performs
exactly two jitter sleeps. -/
theorem backoff_sleep_interval_law_witness :
    (runSleeps exBackoff (fun _ => 0) (fun _ => 200000000)
      [PollOutcome.failure "a", PollOutcome.failure "b"] exDevice).length =
      leadingFailures [PollOutcome.failure "a", PollOutcome.failure "b"] :=
  (backoff_sleep_interval_law exBackoff (fun _ => 0) (fun _ => 200000000)
    [PollOutcome.failure "a", PollOutcome.failure "b"] exDevice
    (by decide) (by decide) (by decide)).1

/-- Witness for C1 at a one-device table: the stale router device is
returned, marked in progress, and satisfies the claim predicate. -/
theorem claim_due_devices_selection_witness :
    ∃ d0 ∈ [exDeviceStale], markInProgress exDeviceStale = markInProgress d0 ∧
      duePredicate exParamOne.deviceType (100 - exParamOne.interval)
        (100 - exParamOne.outdatedPeriod.getD defaultDevicePollingOutdateGap) d0 :=
  (claim_due_devices_selection [exDeviceStale] 100 exParamOne
    { exParamOne with outdatedPeriod := some defaultDevicePollingOutdateGap }
    [markInProgress exDeviceStale] [markInProgress exDeviceStale]
    (by rfl) (by rfl)).1 (markInProgress exDeviceStale) (by simp)

end DMS
